import Mathlib

/-!
Verification of the SocketProgramming FTP client (`src/ftp_client.py`) and its
ClamAV scanning agent (`src/clamav_agent.py`) against the natural-language
specification.  Python strings are embedded as `List Char`; Python exceptions
are embedded as the `Except PyExc` monad, where an `Except.error` escaping a
function models an exception propagating past that function's boundary.
-/

/-- Python strings, embedded as lists of characters. -/
abbrev Str := List Char

/-- Literal helper: a Lean string literal viewed as a Python string. -/
def str (s : String) : Str := s.toList

/-- Python exception values relevant to this program.  `raised msg` stands for
an explicitly raised `Exception(msg)`; `netError` stands for a socket-level
`OSError` injected by the environment. -/
inductive PyExc where
  | valueError
  | indexError
  | raised (msg : Str)
  | netError
  deriving Repr, DecidableEq

/-- Python `s.split(sep)` for a single-character separator: splits at every
occurrence, keeping empty pieces (`"".split(' ') == ['']`). -/
def pySplit (sep : Char) : Str → List Str
  | [] => [[]]
  | c :: rest =>
    match pySplit sep rest with
    | [] => [[]]
    | t :: ts => if c = sep then [] :: t :: ts else (c :: t) :: ts

/-- Python `s[:-n]` for `n ≥ 0`: drop the last `n` characters. -/
def pyDropRight (n : Nat) (s : Str) : Str := s.take (s.length - n)

/-- Python `s[n:]`: drop the first `n` characters. -/
def pyDrop (n : Nat) (s : Str) : Str := s.drop n

/-- Python `l[-1]` on a list known to be non-empty (default for totality). -/
def lastD (l : List Str) : Str := l.getLastD []

/-- Python `l[-2]` on a list known to have at least two elements. -/
def secondLastD (l : List Str) : Str := l.dropLast.getLastD []

/-- Python whitespace (the characters stripped by `int(str)`). -/
def pyWS (c : Char) : Bool :=
  c = ' ' || c = '\t' || c = '\n' || c = '\r' || c = '\x0b' || c = '\x0c'

/-- Python `s.strip()` of whitespace. -/
def pyStrip (s : Str) : Str :=
  ((s.dropWhile pyWS).reverse.dropWhile pyWS).reverse

/-- The numeric value of a decimal digit string. -/
def natOfDigits (s : Str) : Nat :=
  s.foldl (fun n c => 10 * n + (c.toNat - '0'.toNat)) 0

/-- Digit-run part of Python `int(str)`: all characters must be decimal digits
and there must be at least one. -/
def pyIntDigits (ds : Str) : Option Int :=
  if ds ≠ [] ∧ ds.all Char.isDigit then some (Int.ofNat (natOfDigits ds)) else none

/-- Model of Python `int(str)`: strips whitespace, allows one optional sign,
then requires a non-empty run of decimal digits.  (Python additionally allows
underscores between digits and non-ASCII digits; no input in this program
contains those.)  `none` models `int` raising `ValueError`. -/
def pyInt? (s : Str) : Option Int :=
  match pyStrip s with
  | [] => none
  | c :: ds =>
    if c = '+' then pyIntDigits ds
    else if c = '-' then (pyIntDigits ds).map (fun n => -n)
    else pyIntDigits (c :: ds)

/-- Python `c.upper()` for ASCII letters. -/
def pyUpper (c : Char) : Char :=
  if 'a' ≤ c ∧ c ≤ 'z' then Char.ofNat (c.toNat - 32) else c

/-- Python `os.path.basename` (POSIX): the part after the last `/`. -/
def pyBasename (p : Str) : Str := lastD (pySplit '/' p)

/-- Embeds the reply-parsing logic of `ClientSocket.passive_mode`
(src/ftp_client.py lines 207-226), exactly as written there:

* `res = response.split(' ')`; the `if not res` guard raises
  `Exception("Unable to analyze PASV response")` (unreachable: `split` never
  returns an empty list);
* `res[-1] = res[-1][:-3]` — the last three characters of the last
  space-delimited token are removed;
* `data_channel = res[-1].split(',')`, then
  `data_channel[0] = data_channel[0][1:]`;
* `data_host` concatenates `data_channel[0..3]` with dots — indexing raises
  `IndexError` when fewer than four comma fields exist;
* `data_port = int(data_channel[-2]) * 256 + int(data_channel[-1])` — `int`
  raises `ValueError` on non-numeric fields.

The subsequent socket creation and connect are modelled separately in the
networked embedding (`get_data_socket`). -/
def passiveParse (response : Str) : Except PyExc (Str × Int) :=
  let res := pySplit ' ' response
  if res.isEmpty then .error (.raised (str "Unable to analyze PASV response"))
  else
    let lastTok := pyDropRight 3 (lastD res)
    let dc0 := pySplit ',' lastTok
    let dc := dc0.modifyHead (pyDrop 1)
    match dc[1]?, dc[2]?, dc[3]? with
    | some d1, some d2, some d3 =>
      let host := dc.headD [] ++ str "." ++ d1 ++ str "." ++ d2 ++ str "." ++ d3
      match pyInt? (secondLastD dc) with
      | none => .error .valueError
      | some p1 =>
        match pyInt? (lastD dc) with
        | none => .error .valueError
        | some p2 => .ok (host, p1 * 256 + p2)
    | _, _, _ => .error .indexError

/-- Spec-side well-formedness condition on a PASV reply, written from the
spec's words for the refinement part of the parsing claim: after the code's
token extraction and stripping, there are at least four comma-separated
fields and the last two are numeric. -/
def pasvReplyParsable (response : Str) : Bool :=
  let dc := (pySplit ',' (pyDropRight 3 (lastD (pySplit ' ' response)))).modifyHead (pyDrop 1)
  4 ≤ dc.length ∧ (pyInt? (secondLastD dc)).isSome ∧ (pyInt? (lastD dc)).isSome

/-- Outcome of the agent's attempt to run the external `clamscan` process, as
observed by `scan_file` in src/clamav_agent.py: the process exits with a
return code, or spawning it raises `FileNotFoundError` (binary absent), or
some other exception occurs (e.g. `os.path.getsize` failing). -/
inductive ClamOutcome where
  | exits (returncode : Int)
  | clamscanMissing
  | otherFailure
  deriving Repr, DecidableEq

/-- Embeds `scan_file` of src/clamav_agent.py (lines 19-66): runs
`clamscan --infected <path>` and maps the outcome to a verdict string.
The tqdm progress loop does not affect the returned value and is elided. -/
def scan_file (o : ClamOutcome) : Str :=
  match o with
  | .exits rc =>
    if rc = 0 then str "CLEAN"
    else if rc = 1 then str "INFECTED"
    else str "ERROR"
  | .clamscanMissing => str "ERROR"
  | .otherFailure => str "ERROR"

/-- Embeds the socket-timeout computation of
`ClientSocket.scan_file_with_ClamAVAgent` (src/ftp_client.py lines 536-538):
`filesize_mb = os.path.getsize(filename) / (1024 * 1024)` (true division) and
`agent_socket.settimeout(45 + filesize_mb * 4)`.  Python computes this in
floating point; the rational value is the exact result, and for the sizes in
the claims the float result is exact as well. -/
def scanTimeout (filesizeBytes : Nat) : ℚ :=
  45 + ((filesizeBytes : ℚ) / (1024 * 1024)) * 4

/-- Per-attempt outcome of one iteration of the retry loop in
`ClientSocket.scan_file_with_ClamAVAgent` (src/ftp_client.py lines 531-597):
the attempt either completes and receives a verdict string from the agent, or
raises.  `sockErr` is an `OSError` (`socket.error`), `timeoutErr` a
`socket.timeout`, `otherErr` any other exception.  In Python 3,
`socket.error` is an alias of `OSError` and `socket.timeout` is a subclass of
`OSError`, so the `except socket.error` clause at line 570 also catches
timeouts and the `except socket.timeout` clause at line 579 is dead code. -/
inductive AttemptOutcome where
  | success (verdict : Str)
  | sockErr
  | timeoutErr
  | otherErr
  deriving Repr, DecidableEq

/-- Result of a run of the scan-retry loop: the boolean returned to the
caller, the number of calls to `restart_clamav_agent`, and the number of
attempts actually made. -/
structure ScanRun where
  result : Bool
  restarts : Nat
  attempts : Nat
  deriving Repr, DecidableEq

/-- One traversal of `for attempt in range(3)` in
`scan_file_with_ClamAVAgent` (src/ftp_client.py lines 530-599), over the list
of outcomes of the remaining attempts (started with length 3, so
`rest = []` is exactly the Python condition `attempt == max_retries - 1`):

* a completed attempt returns `result == "CLEAN"` (lines 563-568);
* a `socket.error` — which includes `socket.timeout`, see `AttemptOutcome` —
  on a non-final attempt calls `restart_clamav_agent()` (terminate, respawn,
  3-second warm-up; lines 900-911) and retries; on the final attempt it
  returns `False` (lines 570-578);
* any other exception on a non-final attempt retries without a restart; on
  the final attempt it returns `False` (lines 586-592);
* if the loop were to finish without returning, the function returns `False`
  (line 599; unreachable, since the final attempt always returns). -/
def scanAttemptLoop : List AttemptOutcome → ScanRun
  | [] => ⟨false, 0, 0⟩
  | o :: rest =>
    match o with
    | .success v => ⟨v = str "CLEAN", 0, 1⟩
    | .sockErr =>
      if rest.isEmpty then ⟨false, 0, 1⟩
      else
        let r := scanAttemptLoop rest
        ⟨r.result, r.restarts + 1, r.attempts + 1⟩
    | .timeoutErr =>
      if rest.isEmpty then ⟨false, 0, 1⟩
      else
        let r := scanAttemptLoop rest
        ⟨r.result, r.restarts + 1, r.attempts + 1⟩
    | .otherErr =>
      if rest.isEmpty then ⟨false, 0, 1⟩
      else
        let r := scanAttemptLoop rest
        ⟨r.result, r.restarts, r.attempts + 1⟩

/-- Embeds `ClientSocket.scan_file_with_ClamAVAgent` at the granularity of
its retry loop: `max_retries = 3`, so the loop runs over (at most) the three
attempt outcomes.  The verdict returned to `put_file` is `ScanRun.result`. -/
def scan_file_with_ClamAVAgent (o1 o2 o3 : AttemptOutcome) : ScanRun :=
  scanAttemptLoop [o1, o2, o3]

/-- Whether an attempt outcome is a failure (raises some exception). -/
def AttemptOutcome.isFailure : AttemptOutcome → Bool
  | .success _ => false
  | _ => true

/-- Whether an attempt outcome is caught by the `except socket.error` clause
(an `OSError`, which includes `socket.timeout`). -/
def AttemptOutcome.isSocketFailure : AttemptOutcome → Bool
  | .sockErr => true
  | .timeoutErr => true
  | _ => false

/-- `Except` carries a value (no exception pending). -/
def exceptOk {ε α : Type} : Except ε α → Bool
  | .ok _ => true
  | .error _ => false

/-- Environment for one control-channel operation of `ClientSocket`: the
outcome of each network primitive the operation may perform.  An
`Except.error` field means that primitive raises when executed. -/
structure Env where
  /-- `os.path.exists(local_filename)` in `put_file`. -/
  fileExists : Bool
  /-- Outcome of the 1st scan attempt in `scan_file_with_ClamAVAgent`. -/
  scan1 : AttemptOutcome
  /-- Outcome of the 2nd scan attempt. -/
  scan2 : AttemptOutcome
  /-- Outcome of the 3rd scan attempt. -/
  scan3 : AttemptOutcome
  /-- `self.is_passive`. -/
  isPassive : Bool
  /-- Reply received after sending `PASV` (or the recv raising). -/
  pasvReply : Except PyExc Str
  /-- Outcome of `data_socket.connect(...)` in `passive_mode`. -/
  dataConnectOk : Except PyExc Unit
  /-- The control socket's local IPv4 address (`getsockname`), as octets. -/
  localIp : Nat × Nat × Nat × Nat
  /-- Reply received after sending `PORT ...` in `active_mode`. -/
  portReply : Except PyExc Str
  /-- Outcome of `listen_socket.accept()` in `get_data_socket`. -/
  acceptOk : Except PyExc Unit
  /-- Outcome of `context.wrap_socket(...)` on the data socket. -/
  wrapOk : Except PyExc Unit
  /-- Reply received after the triggering STOR/RETR/LIST command (the reply
  expected to start with 150). -/
  cmdReply : Except PyExc Str
  /-- Outcome of the byte-streaming loop (file read + socket send/recv). -/
  streamOk : Except PyExc Unit
  /-- Final reply received after the data connection is closed. -/
  finalReply : Except PyExc Str
  /-- Reply received for `SIZE` in `get_file_size`. -/
  sizeReply : Except PyExc Str
  /-- The directory listing text read from the data socket in `list_files`. -/
  listingData : Except PyExc Str
  /-- The server greeting received in `connect`. -/
  greeting : Except PyExc Str

/-- Observable network-level events of one operation, in order. -/
inductive Ev where
  /-- `scan_file_with_ClamAVAgent` was invoked (its agent traffic elided). -/
  | scanned
  /-- The control socket was connected (`connect`). -/
  | ctrlConnect
  /-- A command was sent on the control channel. -/
  | cmdSent (c : Str)
  /-- The client connected a data socket to the given endpoint (passive). -/
  | dataConnect (host : Str) (port : Int)
  /-- The client bound and listened on local port 10806 (active). -/
  | portListen
  /-- The server's data connection was accepted (active). -/
  | accepted
  /-- The data socket was wrapped in TLS reusing the control session. -/
  | wrapData
  /-- File/listing bytes were streamed on the data connection. -/
  | streamed
  /-- The data socket was closed. -/
  | closeData
  /-- The listening socket was closed. -/
  | closeListen
  deriving Repr, DecidableEq

/-- Embeds `ClientSocket.passive_mode` (src/ftp_client.py lines 194-232):
sends `PASV`, parses the reply with `passiveParse`, connects a data socket to
the parsed endpoint.  Exceptions (from parsing or connecting) propagate to
the caller — `passive_mode` has no handler. -/
def passive_mode (env : Env) : List Ev × Except PyExc (Str × Int) :=
  match env.pasvReply with
  | .error e => ([.cmdSent (str "PASV")], .error e)
  | .ok resp =>
    match passiveParse resp with
    | .error e => ([.cmdSent (str "PASV")], .error e)
    | .ok (h, p) =>
      match env.dataConnectOk with
      | .error e => ([.cmdSent (str "PASV")], .error e)
      | .ok _ => ([.cmdSent (str "PASV"), .dataConnect h p], .ok (h, p))

/-- The `PORT h1,h2,h3,h4,p1,p2` command built by `active_mode`
(src/ftp_client.py lines 249-254) for fixed local port 10806. -/
def portCommand (env : Env) : Str :=
  let h := env.localIp
  str "PORT " ++ str (toString h.1) ++ str "," ++ str (toString h.2.1) ++ str ","
    ++ str (toString h.2.2.1) ++ str "," ++ str (toString h.2.2.2) ++ str ","
    ++ str (toString (10806 / 256)) ++ str "," ++ str (toString (10806 % 256))

/-- Embeds `ClientSocket.active_mode` (src/ftp_client.py lines 234-262):
binds a listening socket on port 10806, sends `PORT`, and requires a reply
starting with 200, raising `Exception("Server refused PORT command")`
otherwise. -/
def active_mode (env : Env) : List Ev × Except PyExc Unit :=
  let t := [Ev.portListen, Ev.cmdSent (portCommand env)]
  match env.portReply with
  | .error e => (t, .error e)
  | .ok resp =>
    if (str "200").isPrefixOf resp then (t, .ok ())
    else (t, .error (.raised (str "Server refused PORT command")))

/-- Embeds `ClientSocket.get_data_socket` (src/ftp_client.py lines 264-293):
negotiates the data channel per the current mode, sends the triggering
command, and in active mode accepts the server's connection afterwards. -/
def get_data_socket (env : Env) (cmd : Str) : List Ev × Except PyExc Unit :=
  if env.isPassive then
    match passive_mode env with
    | (t, .error e) => (t, .error e)
    | (t, .ok _) => (t ++ [.cmdSent cmd], .ok ())
  else
    match active_mode env with
    | (t, .error e) => (t, .error e)
    | (t, .ok _) =>
      match env.acceptOk with
      | .error e => (t ++ [.cmdSent cmd], .error e)
      | .ok _ => (t ++ [.cmdSent cmd, .accepted], .ok ())

/-- The verdict `put_file` receives from `scan_file_with_ClamAVAgent`. -/
def scanVerdict (env : Env) : Bool :=
  (scan_file_with_ClamAVAgent env.scan1 env.scan2 env.scan3).result

/-- Embeds `ClientSocket.get_file_size` (src/ftp_client.py lines 476-494):
sends `SIZE`, returns the parsed size on a 213 reply and `-1` on any other
reply or exception (its own `try`/`except` catches everything). -/
def get_file_size (sizeReply : Except PyExc Str) : Int :=
  match sizeReply with
  | .error _ => -1
  | .ok r =>
    if (str "213").isPrefixOf r then
      match (pySplit ' ' r)[1]? with
      | none => -1
      | some tok =>
        match pyInt? tok with
        | none => -1
        | some n => n
    else -1

/-- The body of the `try` block of `ClientSocket.put_file`
(src/ftp_client.py lines 637-674): negotiate the data channel and send
`STOR`, TLS-wrap the data socket, read the reply; on a reply not starting
with 150, close the data socket (and the listening socket in active mode) and
return; otherwise stream the file in 4096-byte chunks, close, and read the
final reply. -/
def put_fileBody (env : Env) (sname : Str) : List Ev × Except PyExc Unit :=
  match get_data_socket env (str "STOR " ++ sname) with
  | (t, .error e) => (t, .error e)
  | (t, .ok _) =>
    match env.wrapOk with
    | .error e => (t, .error e)
    | .ok _ =>
      let t := t ++ [Ev.wrapData]
      match env.cmdReply with
      | .error e => (t, .error e)
      | .ok resp =>
        if ¬ (str "150").isPrefixOf resp then
          (t ++ [Ev.closeData] ++ (if env.isPassive then [] else [Ev.closeListen]), .ok ())
        else
          let t := t ++ [Ev.streamed]
          match env.streamOk with
          | .error e => (t, .error e)
          | .ok _ =>
            let t := t ++ [Ev.closeData] ++ (if env.isPassive then [] else [Ev.closeListen])
            match env.finalReply with
            | .error e => (t, .error e)
            | .ok _ => (t, .ok ())

/-- The server-side name `put_file` stores under (src/ftp_client.py lines
633-634): the given name unless it is `None` or empty (Python falsiness),
in which case the basename of the local path. -/
def putTargetName (local_filename : Str) (server_filename : Option Str) : Str :=
  match server_filename with
  | none => pyBasename local_filename
  | some s => if s.isEmpty then pyBasename local_filename else s

/-- Embeds `ClientSocket.put_file` (src/ftp_client.py lines 601-679).  Before
any network activity: if the local file does not exist, log and return; then
scan with the ClamAV agent and, unless the verdict is clean, log and return.
Only then run the transfer body, whose exceptions are caught by the
operation's `except` clause (which logs and closes the listening socket if it
was assigned). -/
def put_file (env : Env) (local_filename : Str) (server_filename : Option Str) :
    List Ev × Except PyExc Unit :=
  if ¬ env.fileExists then ([], .ok ())
  else if ¬ scanVerdict env then ([.scanned], .ok ())
  else
    let sname := putTargetName local_filename server_filename
    match put_fileBody env sname with
    | (t, .ok _) => (Ev.scanned :: t, .ok ())
    | (t, .error _) =>
      let listenAssigned :=
        ¬ env.isPassive ∧ exceptOk (get_data_socket env (str "STOR " ++ sname)).2
      (Ev.scanned :: t ++ (if listenAssigned then [Ev.closeListen] else []), .ok ())

/-- The body of the `try` block of `ClientSocket.down_file`
(src/ftp_client.py lines 747-781): query `SIZE`, negotiate the data channel
and send `RETR`, TLS-wrap, read the reply; on a reply not starting with 150,
close the data socket (and the listening socket in active mode) and return;
otherwise stream the received bytes into the local file, close, and read the
final reply. -/
def down_fileBody (env : Env) (server_filename : Str) : List Ev × Except PyExc Unit :=
  let _filesize := get_file_size env.sizeReply
  match get_data_socket env (str "RETR " ++ server_filename) with
  | (t, .error e) => (t, .error e)
  | (t, .ok _) =>
    match env.wrapOk with
    | .error e => (t, .error e)
    | .ok _ =>
      let t := t ++ [Ev.wrapData]
      match env.cmdReply with
      | .error e => (t, .error e)
      | .ok resp =>
        if ¬ (str "150").isPrefixOf resp then
          (t ++ [Ev.closeData] ++ (if env.isPassive then [] else [Ev.closeListen]), .ok ())
        else
          let t := t ++ [Ev.streamed]
          match env.streamOk with
          | .error e => (t, .error e)
          | .ok _ =>
            let t := t ++ [Ev.closeData] ++ (if env.isPassive then [] else [Ev.closeListen])
            match env.finalReply with
            | .error e => (t, .error e)
            | .ok _ => (t, .ok ())

/-- Embeds `ClientSocket.down_file` (src/ftp_client.py lines 721-786).  The
destination-path resolution and `os.makedirs` before the `try` are local
filesystem work (elided); all control-channel work happens inside the `try`,
whose `except` clause logs and closes the listening socket if assigned. -/
def down_file (env : Env) (server_filename : Str) : List Ev × Except PyExc Unit :=
  match down_fileBody env server_filename with
  | (t, .ok _) => (t, .ok ())
  | (t, .error _) =>
    let listenAssigned :=
      ¬ env.isPassive ∧ exceptOk (get_data_socket env (str "RETR " ++ server_filename)).2
    (t ++ (if listenAssigned then [Ev.closeListen] else []), .ok ())

/-- Embeds `ClientSocket.list_files` (src/ftp_client.py lines 295-327):
negotiate the data channel and send `LIST`, TLS-wrap, read the reply; on a
reply not starting with 150, close the data socket and return `None`;
otherwise read the listing until EOF, close both sockets, read the final
reply and return the listing.  `list_files` has no `try`/`except`: any
exception propagates to its caller. -/
def list_files (env : Env) : List Ev × Except PyExc (Option Str) :=
  match get_data_socket env (str "LIST") with
  | (t, .error e) => (t, .error e)
  | (t, .ok _) =>
    match env.wrapOk with
    | .error e => (t, .error e)
    | .ok _ =>
      let t := t ++ [Ev.wrapData]
      match env.cmdReply with
      | .error e => (t, .error e)
      | .ok resp =>
        if ¬ (str "150").isPrefixOf resp then (t ++ [Ev.closeData], .ok none)
        else
          match env.listingData with
          | .error e => (t ++ [Ev.streamed], .error e)
          | .ok listing =>
            let t := t ++ [Ev.streamed, Ev.closeData]
              ++ (if env.isPassive then [] else [Ev.closeListen])
            match env.finalReply with
            | .error e => (t, .error e)
            | .ok _ => (t, .ok (some listing))

/-- The body of the `try` block of `ClientSocket.connect` (src/ftp_client.py
lines 126-132): open the control socket with a 10-second timeout, receive and
log the greeting, and return `True`. -/
def connectBody (env : Env) : List Ev × Except PyExc Bool :=
  match env.greeting with
  | .ok _ => ([.ctrlConnect], .ok true)
  | .error e => ([.ctrlConnect], .error e)

/-- Embeds `ClientSocket.connect` (src/ftp_client.py lines 119-136): the body
above inside `try`/`except Exception`, which logs the error and returns
`False`. -/
def connect (env : Env) : List Ev × Except PyExc Bool :=
  match connectBody env with
  | (t, .ok b) => (t, .ok b)
  | (t, .error _) => (t, .ok false)

/-- Environment for `ClientSocket.login`: the session's transfer mode at
entry ('I' by default from `__init__`, line 89) and the outcome of each
network step. -/
structure LoginEnv where
  /-- `self.transfer_mode` when `login` is called. -/
  initMode : Char
  /-- Reply to `AUTH TLS`. -/
  authReply : Except PyExc Str
  /-- Outcome of `context.wrap_socket` on the control socket. -/
  wrapOk : Except PyExc Unit
  /-- Reply to `USER`. -/
  userReply : Except PyExc Str
  /-- Reply to `PASS`. -/
  passReply : Except PyExc Str
  /-- Reply to `PROT P`. -/
  protReply : Except PyExc Str
  /-- Reply to `TYPE I`. -/
  typeReply : Except PyExc Str

/-- Result of `login`: the control-channel commands sent, the session's
transfer mode on return, and the returned boolean. -/
structure LoginResult where
  sent : List Str
  mode : Char
  ok : Bool
  deriving Repr, DecidableEq

/-- Embeds `ClientSocket.set_transfer_mode` (src/ftp_client.py lines
842-869): uppercase the sign; reject anything but 'A'/'I' without sending;
otherwise send `TYPE <sign>` and update `self.transfer_mode` only if the
reply starts with 200.  Returns the commands sent, the resulting mode, and
whether the recv raised. -/
def set_transfer_mode (curMode : Char) (mode_sign : Char) (typeReply : Except PyExc Str) :
    List Str × Char × Except PyExc Unit :=
  let s := pyUpper mode_sign
  if ¬ (s = 'A' ∨ s = 'I') then ([], curMode, .ok ())
  else
    match typeReply with
    | .error e => ([str "TYPE " ++ [s]], curMode, .error e)
    | .ok r =>
      ([str "TYPE " ++ [s]], (if (str "200").isPrefixOf r then s else curMode), .ok ())

/-- The body of the `try` block of `ClientSocket.login` (src/ftp_client.py
lines 159-188): send `AUTH TLS`; on a 234 reply wrap the control socket in
TLS (verification disabled); send `USER` and `PASS`; if the PASS reply starts
with 230, send `PROT P`, call `set_transfer_mode('I')` and return `True`;
otherwise return `False`.  Returns the commands sent and the session's
transfer mode alongside the outcome, since those survive an exception. -/
def loginBody (env : LoginEnv) (username password : Str) :
    (List Str × Char) × Except PyExc Bool :=
  let sent0 := [str "AUTH TLS"]
  match env.authReply with
  | .error e => ((sent0, env.initMode), .error e)
  | .ok ar =>
    match (if (str "234").isPrefixOf ar then env.wrapOk else .ok ()) with
    | .error e => ((sent0, env.initMode), .error e)
    | .ok _ =>
      let sent1 := sent0 ++ [str "USER " ++ username]
      match env.userReply with
      | .error e => ((sent1, env.initMode), .error e)
      | .ok _ =>
        let sent2 := sent1 ++ [str "PASS " ++ password]
        match env.passReply with
        | .error e => ((sent2, env.initMode), .error e)
        | .ok pr =>
          if (str "230").isPrefixOf pr then
            let sent3 := sent2 ++ [str "PROT P"]
            match env.protReply with
            | .error e => ((sent3, env.initMode), .error e)
            | .ok _ =>
              match set_transfer_mode env.initMode 'I' env.typeReply with
              | (tsent, m, .error e) => ((sent3 ++ tsent, m), .error e)
              | (tsent, m, .ok _) => ((sent3 ++ tsent, m), .ok true)
          else ((sent2, env.initMode), .ok false)

/-- Embeds `ClientSocket.login` (src/ftp_client.py lines 138-192): the body
above inside `try`/`except Exception`, which logs the exception and returns
`False`. -/
def login (env : LoginEnv) (username password : Str) : LoginResult :=
  match loginBody env username password with
  | ((sent, m), .ok b) => ⟨sent, m, b⟩
  | ((sent, m), .error _) => ⟨sent, m, false⟩

/-- Embeds `ClientSocket.rename_server_file` (src/ftp_client.py lines
434-452): send `RNFR <original>`; receive the reply; only if it starts with
350 send `RNTO <new>` and receive its reply; otherwise log an error and stop.
There is no `try`/`except`: a raising recv propagates. -/
def rename_server_file (rnfrReply rntoReply : Except PyExc Str)
    (original_name new_name : Str) : List Str × Except PyExc Unit :=
  let sent0 := [str "RNFR " ++ original_name]
  match rnfrReply with
  | .error e => (sent0, .error e)
  | .ok r =>
    if (str "350").isPrefixOf r then
      match rntoReply with
      | .error e => (sent0 ++ [str "RNTO " ++ new_name], .error e)
      | .ok _ => (sent0 ++ [str "RNTO " ++ new_name], .ok ())
    else (sent0, .ok ())

/-- A transfer job as consumed by `GUI._transfer_worker`: its op string and
whether executing it (the `self.client...` call) raises. -/
structure WJob where
  op : Str
  raises : Bool
  deriving Repr, DecidableEq

/-- Observable events of the transfer worker. -/
inductive WEv where
  /-- The worker dequeued the job and began processing it. -/
  | jobStarted (op : Str)
  /-- The job's client call returned. -/
  | jobOk (op : Str)
  /-- The job's client call raised; the exception was caught and logged. -/
  | jobFailed (op : Str)
  /-- The op string matched no branch; "Unknown job op" was logged. -/
  | jobUnknown (op : Str)
  /-- `task_done()` was called in the `finally` block. -/
  | taskDone
  /-- The worker loop was exited. -/
  | workerStopped
  deriving Repr, DecidableEq

/-- The op strings `_transfer_worker` dispatches on (src/ftp_client.py lines
1666-1694). -/
def workerKnownOps : List Str :=
  [str "upload_file", str "upload_folder", str "download_file", str "download_folder"]

/-- Embeds `GUI._transfer_worker` (src/ftp_client.py lines 1627-1705) over
the FIFO sequence of jobs in `self.transfer_queue` (a `queue.Queue`, which
yields items in enqueue order to its single consumer).  Each iteration:
`get()` the next job; a `None` job calls `task_done()` and breaks the loop;
otherwise dispatch on the op string, catch and log any exception from the
client call, and always call `task_done()` in `finally` before looping.  An
empty list models the worker blocked in `get()` waiting for more jobs. -/
def transfer_worker : List (Option WJob) → List WEv
  | [] => []
  | none :: _ => [.taskDone, .workerStopped]
  | some j :: rest =>
    .jobStarted j.op ::
      (if workerKnownOps.contains j.op then
        (if j.raises then .jobFailed j.op else .jobOk j.op)
       else .jobUnknown j.op) ::
      .taskDone :: transfer_worker rest

/-- The ops of the jobs the worker started, in order of starting. -/
def startedOps : List WEv → List Str
  | [] => []
  | .jobStarted op :: rest => op :: startedOps rest
  | _ :: rest => startedOps rest

/-- The jobs enqueued before the first `None` sentinel. -/
def jobsBeforeSentinel : List (Option WJob) → List WJob
  | [] => []
  | none :: _ => []
  | some j :: rest => j :: jobsBeforeSentinel rest

/-- Serial-execution checker: scanning the trace with a flag for "a job is
in flight", it rejects any trace in which a job starts while another is still
in flight (i.e. before the previous job's `task_done`). -/
def serialOk : Bool → List WEv → Bool
  | _, [] => true
  | openJob, e :: rest =>
    match e with
    | .jobStarted _ => if openJob then false else serialOk true rest
    | .taskDone => serialOk false rest
    | _ => serialOk openJob rest

/-- A CRLF-terminated PASV reply with the given six fields: the form real
FTP servers (e.g. FileZilla Server) send on the wire, with no trailing
period and ending in the protocol's CRLF. -/
def pasvReplyCRLF (a b c d e f : Str) : Str :=
  str "227 Entering Passive Mode (" ++ a ++ str "," ++ b ++ str "," ++ c ++ str ","
    ++ d ++ str "," ++ e ++ str "," ++ f ++ str ")\r\n"

/-- Whether the data-channel negotiation steps performed by
`get_data_socket` before the triggering command all succeed: in passive mode,
the PASV reply is received and parses and the data connect succeeds; in
active mode, the PORT reply is received, starts with 200, and the accept
succeeds. -/
def negotiationOk (env : Env) : Bool :=
  if env.isPassive then
    (match env.pasvReply with
     | .ok r => exceptOk (passiveParse r)
     | .error _ => false) && exceptOk env.dataConnectOk
  else
    (match env.portReply with
     | .ok r => (str "200").isPrefixOf r
     | .error _ => false) && exceptOk env.acceptOk

/-- A fully successful concrete environment: file present, clean scan on the
first attempt, passive mode, well-formed replies at every step. -/
def envOk : Env where
  fileExists := true
  scan1 := .success (str "CLEAN")
  scan2 := .success (str "CLEAN")
  scan3 := .success (str "CLEAN")
  isPassive := true
  pasvReply := .ok (str "227 Entering Passive Mode (127,0,0,1,42,54)\r\n")
  dataConnectOk := .ok ()
  localIp := (127, 0, 0, 1)
  portReply := .ok (str "200 Port command successful\r\n")
  acceptOk := .ok ()
  wrapOk := .ok ()
  cmdReply := .ok (str "150 Opening data channel\r\n")
  streamOk := .ok ()
  finalReply := .ok (str "226 Transfer complete\r\n")
  sizeReply := .ok (str "213 5\r\n")
  listingData := .ok (str "-rw-r--r-- 1 u g 5 Jan 01 00:00 a.txt\r\n")
  greeting := .ok (str "220 Welcome\r\n")

/-- `envOk` but the PASV reply is an error reply that `passive_mode` cannot
parse (its comma-split has fewer than four fields, so indexing raises). -/
def envBadPasv : Env :=
  { envOk with pasvReply := .ok (str "550 Passive mode refused\r\n") }

/-- `envOk` but the reply to the triggering command is not a 150 reply. -/
def envDenied : Env :=
  { envOk with cmdReply := .ok (str "550 Permission denied\r\n") }

/-- `envOk` but the local file to upload does not exist. -/
def envNoFile : Env :=
  { envOk with fileExists := false }

/-- `envOk` but the agent's first scan attempt reports INFECTED. -/
def envInfected : Env :=
  { envOk with scan1 := .success (str "INFECTED") }

/-- A concrete login environment in which every step succeeds but the server
refuses the `TYPE I` command, while the session's transfer mode was
previously 'A'. -/
def loginEnvTypeRefused : LoginEnv where
  initMode := 'A'
  authReply := .ok (str "234 Using authentication type TLS\r\n")
  wrapOk := .ok ()
  userReply := .ok (str "331 Password required\r\n")
  passReply := .ok (str "230 Login successful\r\n")
  protReply := .ok (str "200 Protection level set to P\r\n")
  typeReply := .ok (str "504 Command not implemented\r\n")

/-- A concrete login environment in which the PASS reply is a 530 refusal. -/
def loginEnvBadPass : LoginEnv :=
  { loginEnvTypeRefused with
      initMode := 'I'
      passReply := .ok (str "530 Login incorrect\r\n") }

/-- A concrete login environment in which the very first read (the AUTH TLS
reply) raises a socket error. -/
def loginEnvNetFail : LoginEnv :=
  { loginEnvTypeRefused with authReply := .error .netError }

theorem pySplit_ne_nil (sep : Char) (s : Str) : pySplit sep s ≠ [] := by
  cases s with
  | nil => simp [pySplit]
  | cons c rest =>
    simp only [pySplit]
    cases pySplit sep rest with
    | nil => simp
    | cons t ts =>
      by_cases h : c = sep <;> simp [h]

theorem pySplit_no_sep {sep : Char} {s : Str} (h : sep ∉ s) : pySplit sep s = [s] := by
  induction s with
  | nil => rfl
  | cons c rest ih =>
    have hc : c ≠ sep := fun e => h (e ▸ List.mem_cons_self c rest)
    have hr : sep ∉ rest := fun e => h (List.mem_cons_of_mem c e)
    simp only [pySplit, ih hr]
    simp [hc]

theorem pySplit_sep_append {sep : Char} {xs : Str} (ys : Str) (h : sep ∉ xs) :
    pySplit sep (xs ++ sep :: ys) = xs :: pySplit sep ys := by
  induction xs with
  | nil =>
    simp only [List.nil_append, pySplit]
    cases hys : pySplit sep ys with
    | nil => exact absurd hys (pySplit_ne_nil sep ys)
    | cons t ts => simp
  | cons c rest ih =>
    have hc : c ≠ sep := fun e => h (e ▸ List.mem_cons_self c rest)
    have hr : sep ∉ rest := fun e => h (List.mem_cons_of_mem c e)
    have h1 : pySplit sep ((c :: rest) ++ sep :: ys)
        = match pySplit sep (rest ++ sep :: ys) with
          | [] => [[]]
          | t :: ts => if c = sep then [] :: t :: ts else (c :: t) :: ts := rfl
    rw [h1, ih hr]
    simp [hc]

theorem pyDropRight_append3 (xs : Str) (x y z : Char) :
    pyDropRight 3 (xs ++ [x, y, z]) = xs := by
  have hlen : (xs ++ [x, y, z]).length - 3 = xs.length := by
    simp [List.length_append]
  simp only [pyDropRight, hlen]
  exact List.take_left xs [x, y, z]

theorem digit_not_ws {c : Char} (h : c.isDigit = true) : pyWS c = false := by
  cases hws : pyWS c with
  | false => rfl
  | true =>
    exfalso
    simp only [pyWS, Bool.or_eq_true, decide_eq_true_eq] at hws
    rcases hws with (((((e | e) | e) | e) | e) | e) <;> subst e <;>
      exact absurd h (by decide)

theorem dropWhile_eq_self_of_none {p : Char → Bool} {l : Str}
    (h : ∀ c ∈ l, p c = false) : l.dropWhile p = l := by
  cases l with
  | nil => rfl
  | cons a l => simp [List.dropWhile_cons, h a (List.mem_cons_self a l)]

theorem pyStrip_of_digits {s : Str} (h : s.all Char.isDigit = true) :
    pyStrip s = s := by
  have hmem : ∀ c ∈ s, pyWS c = false := by
    intro c hc
    exact digit_not_ws (by exact List.all_eq_true.mp h c hc)
  have h1 : s.dropWhile pyWS = s := dropWhile_eq_self_of_none hmem
  have h2 : s.reverse.dropWhile pyWS = s.reverse :=
    dropWhile_eq_self_of_none (fun c hc => hmem c (List.mem_reverse.mp hc))
  simp [pyStrip, h1, h2]

theorem digit_ne_plus {c : Char} (h : c.isDigit = true) : c ≠ '+' := by
  intro e; subst e; simp_all

theorem digit_ne_minus {c : Char} (h : c.isDigit = true) : c ≠ '-' := by
  intro e; subst e; simp_all

theorem pyInt?_of_digits {s : Str} (hne : s ≠ []) (h : s.all Char.isDigit = true) :
    pyInt? s = some (Int.ofNat (natOfDigits s)) := by
  cases s with
  | nil => exact absurd rfl hne
  | cons c ds =>
    have hstrip := pyStrip_of_digits h
    have hc : c.isDigit = true := by
      have := List.all_eq_true.mp h c (List.mem_cons_self c ds)
      simpa using this
    simp only [pyInt?, hstrip, digit_ne_plus hc, if_false, digit_ne_minus hc]
    simp [pyIntDigits, h]

theorem no_space_of_digits {s : Str} (h : s.all Char.isDigit = true) : ' ' ∉ s :=
  fun hm => absurd (List.all_eq_true.mp h _ hm) (by decide)

theorem no_comma_of_digits {s : Str} (h : s.all Char.isDigit = true) : ',' ∉ s :=
  fun hm => absurd (List.all_eq_true.mp h _ hm) (by decide)

theorem pasv_parse_crlf (a b c d e f : Str)
    (ha : a.all Char.isDigit = true) (hb : b.all Char.isDigit = true)
    (hc : c.all Char.isDigit = true) (hd : d.all Char.isDigit = true)
    (he : e.all Char.isDigit = true) (hf : f.all Char.isDigit = true)
    (hee : e ≠ []) (hfe : f ≠ []) :
    passiveParse (pasvReplyCRLF a b c d e f)
      = .ok (a ++ str "." ++ b ++ str "." ++ c ++ str "." ++ d,
             (natOfDigits e : Int) * 256 + (natOfDigits f : Int)) := by
  have h1 : str "227 Entering Passive Mode ("
      = ['2','2','7',' ','E','n','t','e','r','i','n','g',' ','P','a','s','s','i','v','e',' ','M','o','d','e',' ','('] := rfl
  have h2 : str "," = [','] := rfl
  have h3 : str ")\r\n" = [')','\r','\n'] := rfl
  have hreply : pasvReplyCRLF a b c d e f
      = ['2','2','7'] ++ ' ' :: (['E','n','t','e','r','i','n','g'] ++ ' ' ::
        (['P','a','s','s','i','v','e'] ++ ' ' :: (['M','o','d','e'] ++ ' ' ::
        ('(' :: (a ++ ',' :: (b ++ ',' :: (c ++ ',' :: (d ++ ',' :: (e ++ ',' ::
          (f ++ [')', '\r', '\n']))))))))))  := by
    simp only [pasvReplyCRLF, h1, h2, h3, List.cons_append, List.append_assoc,
      List.nil_append, List.singleton_append]
  have hsp : ' ' ∉ ('(' :: (a ++ ',' :: (b ++ ',' :: (c ++ ',' :: (d ++ ',' :: (e ++ ',' ::
      (f ++ [')', '\r', '\n']))))))) := by
    intro hm
    simp only [List.mem_cons, List.mem_append] at hm
    rcases hm with e' | hm
    · exact absurd e' (by decide)
    rcases hm with hm | hm
    · exact no_space_of_digits ha hm
    rcases hm with e' | hm
    · exact absurd e' (by decide)
    rcases hm with hm | hm
    · exact no_space_of_digits hb hm
    rcases hm with e' | hm
    · exact absurd e' (by decide)
    rcases hm with hm | hm
    · exact no_space_of_digits hc hm
    rcases hm with e' | hm
    · exact absurd e' (by decide)
    rcases hm with hm | hm
    · exact no_space_of_digits hd hm
    rcases hm with e' | hm
    · exact absurd e' (by decide)
    rcases hm with hm | hm
    · exact no_space_of_digits he hm
    rcases hm with e' | hm
    · exact absurd e' (by decide)
    rcases hm with hm | hm
    · exact no_space_of_digits hf hm
    rcases hm with e' | e' | e' <;> exact absurd e' (by decide)
  have hs1 : pySplit ' ' (pasvReplyCRLF a b c d e f)
      = [['2','2','7'], ['E','n','t','e','r','i','n','g'], ['P','a','s','s','i','v','e'],
         ['M','o','d','e'],
         '(' :: (a ++ ',' :: (b ++ ',' :: (c ++ ',' :: (d ++ ',' :: (e ++ ',' ::
           (f ++ [')', '\r', '\n']))))))] := by
    rw [hreply, pySplit_sep_append _ (by decide), pySplit_sep_append _ (by decide),
      pySplit_sep_append _ (by decide), pySplit_sep_append _ (by decide),
      pySplit_no_sep hsp]
  have hcpa : ',' ∉ '(' :: a := by
    intro hm
    rcases List.mem_cons.mp hm with e' | hm
    · exact absurd e' (by decide)
    · exact no_comma_of_digits ha hm
  have htokform : '(' :: (a ++ ',' :: (b ++ ',' :: (c ++ ',' :: (d ++ ',' :: (e ++ ',' ::
      (f ++ [')', '\r', '\n']))))))
      = ('(' :: (a ++ ',' :: (b ++ ',' :: (c ++ ',' :: (d ++ ',' :: (e ++ ',' :: f))))))
        ++ [')', '\r', '\n'] := by
    simp [List.append_assoc, List.cons_append]
  have hfront : pySplit ',' ('(' :: (a ++ ',' :: (b ++ ',' :: (c ++ ',' :: (d ++ ',' ::
      (e ++ ',' :: f))))))
      = [('(' :: a), b, c, d, e, f] := by
    show pySplit ','
      (('(' :: a) ++ ',' :: (b ++ ',' :: (c ++ ',' :: (d ++ ',' :: (e ++ ',' :: f))))) = _
    rw [pySplit_sep_append _ hcpa, pySplit_sep_append _ (no_comma_of_digits hb),
      pySplit_sep_append _ (no_comma_of_digits hc),
      pySplit_sep_append _ (no_comma_of_digits hd),
      pySplit_sep_append _ (no_comma_of_digits he),
      pySplit_no_sep (no_comma_of_digits hf)]
  have hld : lastD [['2','2','7'], ['E','n','t','e','r','i','n','g'],
      ['P','a','s','s','i','v','e'], ['M','o','d','e'],
      '(' :: (a ++ ',' :: (b ++ ',' :: (c ++ ',' :: (d ++ ',' :: (e ++ ',' ::
        (f ++ [')', '\r', '\n']))))))]
      = '(' :: (a ++ ',' :: (b ++ ',' :: (c ++ ',' :: (d ++ ',' :: (e ++ ',' ::
        (f ++ [')', '\r', '\n'])))))) := rfl
  have key : ∀ resp : Str,
      pySplit ' ' resp
        = [['2','2','7'], ['E','n','t','e','r','i','n','g'], ['P','a','s','s','i','v','e'],
           ['M','o','d','e'],
           '(' :: (a ++ ',' :: (b ++ ',' :: (c ++ ',' :: (d ++ ',' :: (e ++ ',' ::
             (f ++ [')', '\r', '\n']))))))] →
      passiveParse resp
        = .ok (a ++ str "." ++ b ++ str "." ++ c ++ str "." ++ d,
               (natOfDigits e : Int) * 256 + (natOfDigits f : Int)) := by
    intro resp hs
    simp only [passiveParse, hs, hld]
    rw [htokform, pyDropRight_append3, hfront]
    simp only [List.modifyHead]
    have hda : pyDrop 1 ('(' :: a) = a := rfl
    rw [hda]
    have h2nd : secondLastD [a, b, c, d, e, f] = e := rfl
    have hlst : lastD [a, b, c, d, e, f] = f := rfl
    simp only [List.isEmpty, Bool.false_eq_true, if_false, List.getElem?_cons_succ,
      List.getElem?_cons_zero, h2nd, hlst, pyInt?_of_digits hee he, pyInt?_of_digits hfe hf,
      List.headD_cons]
    rfl
  exact key _ hs1

theorem passiveParse_ok_iff (response : Str) :
    exceptOk (passiveParse response) = pasvReplyParsable response := by
  cases hres : pySplit ' ' response with
  | nil => exact absurd hres (pySplit_ne_nil ' ' response)
  | cons t ts =>
    simp only [passiveParse, pasvReplyParsable, hres]
    simp only [List.isEmpty_cons, Bool.false_eq_true, if_false]
    generalize hg : List.modifyHead (pyDrop 1) (pySplit ',' (pyDropRight 3 (lastD (t :: ts)))) = dc
    rcases h1 : dc[1]? with _ | d1 <;> rcases h2 : dc[2]? with _ | d2 <;>
      rcases h3 : dc[3]? with _ | d3
    · have hl1 : dc.length ≤ 1 := List.getElem?_eq_none_iff.mp h1
      simp [h1, h2, h3, exceptOk]
      omega
    · have hl1 : dc.length ≤ 1 := List.getElem?_eq_none_iff.mp h1
      have hl3 : 3 < dc.length := (List.getElem?_eq_some.mp h3).1
      omega
    · have hl1 : dc.length ≤ 1 := List.getElem?_eq_none_iff.mp h1
      have hl2 : 2 < dc.length := (List.getElem?_eq_some.mp h2).1
      omega
    · have hl1 : dc.length ≤ 1 := List.getElem?_eq_none_iff.mp h1
      have hl2 : 2 < dc.length := (List.getElem?_eq_some.mp h2).1
      omega
    · have hl2 : dc.length ≤ 2 := List.getElem?_eq_none_iff.mp h2
      have hl1 : 1 < dc.length := (List.getElem?_eq_some.mp h1).1
      simp [h1, h2, h3, exceptOk]
      omega
    · have hl2 : dc.length ≤ 2 := List.getElem?_eq_none_iff.mp h2
      have hl3 : 3 < dc.length := (List.getElem?_eq_some.mp h3).1
      omega
    · have hl3 : dc.length ≤ 3 := List.getElem?_eq_none_iff.mp h3
      simp [h1, h2, h3, exceptOk]
      omega
    · have hl3 : 3 < dc.length := (List.getElem?_eq_some.mp h3).1
      simp only [h1, h2, h3]
      rcases hp1 : pyInt? (secondLastD dc) with _ | p1 <;>
        rcases hp2 : pyInt? (lastD dc) with _ | p2 <;>
        simp [hp1, hp2, exceptOk, hl3] <;> omega

/-- C1 (amended): `passive_mode` parses a PASV reply by taking the last
space-delimited token and removing its last *three* characters — which fits
the on-the-wire reply form ending in `)` followed by CRLF, not the documented
form with a trailing period — then splitting on commas and dropping the
leading `(`.  For every reply `227 Entering Passive Mode (h1,h2,h3,h4,p1,p2)`
followed by CRLF with numeric fields it yields host `h1.h2.h3.h4` and port
`p1*256 + p2`; and it raises an exception (a generic `IndexError` or
`ValueError`, not a dedicated ProtocolError class) exactly when the comma
split does not yield at least four fields whose last two are numeric. -/
theorem passive_mode_parse_spec :
    (∀ a b c d e f : Str,
      a.all Char.isDigit = true → b.all Char.isDigit = true →
      c.all Char.isDigit = true → d.all Char.isDigit = true →
      e.all Char.isDigit = true → f.all Char.isDigit = true →
      e ≠ [] → f ≠ [] →
      passiveParse (pasvReplyCRLF a b c d e f)
        = .ok (a ++ str "." ++ b ++ str "." ++ c ++ str "." ++ d,
               (natOfDigits e : Int) * 256 + (natOfDigits f : Int))) ∧
    (∀ response : Str, exceptOk (passiveParse response) = pasvReplyParsable response) :=
  ⟨pasv_parse_crlf, passiveParse_ok_iff⟩

/-- Witness for the amended PASV parsing claim at a concrete reply. -/
theorem passive_mode_parse_spec_witness :
    passiveParse (pasvReplyCRLF (str "192") (str "168") (str "1") (str "2")
        (str "10") (str "102"))
      = .ok (str "192.168.1.2", 2662) :=
  passive_mode_parse_spec.1 (str "192") (str "168") (str "1") (str "2") (str "10")
    (str "102") (by decide) (by decide) (by decide) (by decide) (by decide) (by decide)
    (by decide) (by decide)

/-- C1 counterexample: on a reply of exactly the documented form
`227 Entering Passive Mode (h1,h2,h3,h4,p1,p2).` (trailing period, no CRLF),
the stripping of three characters eats into `p2`, so the parsed port is
`10*256 + 1 + ... = 2570` instead of the claimed `10*256 + 102 = 2662`; and a
reply with seven comma fields — not six — is accepted rather than raising. -/
theorem passive_mode_parse_counterexample :
    passiveParse (str "227 Entering Passive Mode (192,168,1,2,10,102).")
      = .ok (str "192.168.1.2", 2570) ∧
    (2570 : Int) ≠ 10 * 256 + 102 ∧
    passiveParse (str "227 Entering Passive Mode (1,2,3,4,5,6,7)\r\n")
      = .ok (str "1.2.3.4", 1543) :=
  ⟨rfl, by decide, rfl⟩

/-- C7: the agent's `scan_file` returns "CLEAN" when the external scanner
exits with status 0, "INFECTED" when it exits with status 1, and "ERROR" for
any other exit status or when the scanner binary is absent. -/
theorem clamav_scan_file_verdicts :
    scan_file (.exits 0) = str "CLEAN" ∧
    scan_file (.exits 1) = str "INFECTED" ∧
    (∀ rc : Int, rc ≠ 0 → rc ≠ 1 → scan_file (.exits rc) = str "ERROR") ∧
    scan_file .clamscanMissing = str "ERROR" := by
  refine ⟨rfl, rfl, ?_, rfl⟩
  intro rc h0 h1
  simp [scan_file, h0, h1]

/-- Witness for the scan-verdict claim at exit status 7. -/
theorem clamav_scan_file_verdicts_witness :
    scan_file (.exits 7) = str "ERROR" :=
  clamav_scan_file_verdicts.2.2.1 7 (by decide) (by decide)

/-- C8: the client's socket timeout for a scan is exactly
`45 + 4 × (file size in MB)` seconds, where a MB is `1024*1024` bytes; in
particular a 100MB file gives 445 seconds. -/
theorem scan_timeout_formula :
    (∀ n : Nat, scanTimeout n = 45 + 4 * ((n : ℚ) / (1024 * 1024))) ∧
    scanTimeout (100 * 1024 * 1024) = 445 := by
  constructor
  · intro n
    unfold scanTimeout
    ring
  · unfold scanTimeout
    norm_num

/-- C10: `rename_server_file` sends `RNFR` first, and sends `RNTO` exactly
when the RNFR reply was received and starts with 350. -/
theorem rnto_only_after_350 :
    ∀ (fr tr : Except PyExc Str) (orig newName : Str),
      ((rename_server_file fr tr orig newName).1.head? = some (str "RNFR " ++ orig)) ∧
      ((str "RNTO " ++ newName) ∈ (rename_server_file fr tr orig newName).1 ↔
        ∃ r, fr = .ok r ∧ (str "350").isPrefixOf r = true) := by
  intro fr tr orig newName
  have hrnto : str "RNTO " = ['R', 'N', 'T', 'O', ' '] := rfl
  have hrnfr : str "RNFR " = ['R', 'N', 'F', 'R', ' '] := rfl
  have hne : str "RNTO " ++ newName ≠ str "RNFR " ++ orig := by
    rw [hrnto, hrnfr]
    simp
  cases fr with
  | error e =>
    refine ⟨rfl, ?_⟩
    simp only [rename_server_file]
    constructor
    · intro hm
      rcases List.mem_cons.mp hm with h | h
      · exact absurd h hne
      · simp at h
    · rintro ⟨r, hr, h350⟩
      cases hr
  | ok r =>
    by_cases h350 : (str "350").isPrefixOf r = true
    · refine ⟨?_, ?_⟩
      · cases tr <;> simp [rename_server_file, h350]
      · constructor
        · intro hm
          exact ⟨r, rfl, h350⟩
        · intro hex
          cases tr <;> simp [rename_server_file, h350]
    · refine ⟨?_, ?_⟩
      · simp [rename_server_file, h350]
      · constructor
        · intro hm
          simp only [rename_server_file, h350, if_false] at hm
          rcases List.mem_cons.mp hm with h | h
          · exact absurd h hne
          · simp at h
        · rintro ⟨r', hr', h350'⟩
          cases hr'
          exact absurd h350' h350

/-- C3: the scan-agent retry loop makes at most 3 attempts; three consecutive
failures return the fail-closed `False` after exactly 3 attempts, with the
agent restarted between retries (twice for three socket/timeout failures,
never after the final attempt); one socket/timeout failure followed by a
successful attempt returns that attempt's verdict after exactly one restart
and two attempts. -/
theorem scan_agent_retry_policy :
    (∀ o1 o2 o3 : AttemptOutcome, (scan_file_with_ClamAVAgent o1 o2 o3).attempts ≤ 3) ∧
    (∀ o1 o2 o3 : AttemptOutcome,
      o1.isFailure = true → o2.isFailure = true → o3.isFailure = true →
      (scan_file_with_ClamAVAgent o1 o2 o3).result = false ∧
      (scan_file_with_ClamAVAgent o1 o2 o3).attempts = 3) ∧
    (∀ o1 o2 o3 : AttemptOutcome,
      o1.isSocketFailure = true → o2.isSocketFailure = true → o3.isSocketFailure = true →
      (scan_file_with_ClamAVAgent o1 o2 o3).restarts = 2) ∧
    (∀ (o1 o3 : AttemptOutcome) (v : Str), o1.isSocketFailure = true →
      ((scan_file_with_ClamAVAgent o1 (.success v) o3).result = true ↔ v = str "CLEAN") ∧
      (scan_file_with_ClamAVAgent o1 (.success v) o3).restarts = 1 ∧
      (scan_file_with_ClamAVAgent o1 (.success v) o3).attempts = 2) := by
  refine ⟨?_, ?_, ?_, ?_⟩
  · intro o1 o2 o3
    cases o1 <;> cases o2 <;> cases o3 <;>
      simp [scan_file_with_ClamAVAgent, scanAttemptLoop]
  · intro o1 o2 o3 h1 h2 h3
    cases o1 <;> cases o2 <;> cases o3 <;>
      simp_all [AttemptOutcome.isFailure, scan_file_with_ClamAVAgent, scanAttemptLoop]
  · intro o1 o2 o3 h1 h2 h3
    cases o1 <;> cases o2 <;> cases o3 <;>
      simp_all [AttemptOutcome.isSocketFailure, scan_file_with_ClamAVAgent, scanAttemptLoop]
  · intro o1 o3 v h1
    cases o1 <;>
      simp_all [AttemptOutcome.isSocketFailure, scan_file_with_ClamAVAgent, scanAttemptLoop]

/-- Witness for the retry-policy claim: a timeout on the first attempt, then
a clean verdict, gives one restart and two attempts. -/
theorem scan_agent_retry_policy_witness :
    ((scan_file_with_ClamAVAgent .timeoutErr (.success (str "CLEAN")) .otherErr).result = true ↔
      str "CLEAN" = str "CLEAN") ∧
    (scan_file_with_ClamAVAgent .timeoutErr (.success (str "CLEAN")) .otherErr).restarts = 1 ∧
    (scan_file_with_ClamAVAgent .timeoutErr (.success (str "CLEAN")) .otherErr).attempts = 2 :=
  scan_agent_retry_policy.2.2.2 .timeoutErr .otherErr (str "CLEAN") (by decide)

theorem startedOps_skip {x : WEv} (h : ∀ op, x ≠ .jobStarted op) (t : List WEv) :
    startedOps (x :: t) = startedOps t := by
  cases x with
  | jobStarted op => exact absurd rfl (h op)
  | jobOk op => rfl
  | jobFailed op => rfl
  | jobUnknown op => rfl
  | taskDone => rfl
  | workerStopped => rfl

theorem serialOk_skip {x : WEv} (h1 : ∀ op, x ≠ .jobStarted op) (h2 : x ≠ .taskDone)
    (b : Bool) (t : List WEv) : serialOk b (x :: t) = serialOk b t := by
  cases x with
  | jobStarted op => exact absurd rfl (h1 op)
  | jobOk op => rfl
  | jobFailed op => rfl
  | jobUnknown op => rfl
  | taskDone => exact absurd rfl h2
  | workerStopped => rfl

theorem transfer_worker_cons_some (jj : WJob) (rest : List (Option WJob)) :
    ∃ x : WEv, (∀ op, x ≠ .jobStarted op) ∧ x ≠ .taskDone ∧
      transfer_worker (some jj :: rest)
        = .jobStarted jj.op :: x :: .taskDone :: transfer_worker rest := by
  simp only [transfer_worker]
  by_cases hk : workerKnownOps.contains jj.op = true
  · have hk' : jj.op ∈ workerKnownOps := by simpa using hk
    by_cases hr : jj.raises = true
    · exact ⟨.jobFailed jj.op, by simp, by simp, by simp [hk', hr]⟩
    · exact ⟨.jobOk jj.op, by simp, by simp, by simp [hk', hr]⟩
  · have hk' : jj.op ∉ workerKnownOps := by simpa using hk
    exact ⟨.jobUnknown jj.op, by simp, by simp, by simp [hk']⟩

/-- C9: the single transfer worker starts exactly the jobs enqueued before
the first `None` sentinel, in FIFO order; it never has two jobs in flight at
once (each started job reaches its `task_done` before the next job starts,
whether the job's client call returned or raised); and a `None` sentinel
terminates the worker loop. -/
theorem transfer_worker_fifo :
    ∀ jobs : List (Option WJob),
      startedOps (transfer_worker jobs) = (jobsBeforeSentinel jobs).map WJob.op ∧
      serialOk false (transfer_worker jobs) = true ∧
      (none ∈ jobs → (transfer_worker jobs).getLast? = some .workerStopped) := by
  intro jobs
  induction jobs with
  | nil =>
    refine ⟨rfl, rfl, ?_⟩
    intro h
    simp at h
  | cons j rest ih =>
    obtain ⟨ih1, ih2, ih3⟩ := ih
    cases j with
    | none =>
      refine ⟨rfl, rfl, ?_⟩
      intro _
      rfl
    | some jj =>
      obtain ⟨x, hx1, hx2, heq⟩ := transfer_worker_cons_some jj rest
      refine ⟨?_, ?_, ?_⟩
      · rw [heq, show startedOps (WEv.jobStarted jj.op :: x :: WEv.taskDone :: transfer_worker rest)
            = jj.op :: startedOps (x :: WEv.taskDone :: transfer_worker rest) from rfl,
          startedOps_skip hx1, startedOps_skip (by simp) _]
        simp [jobsBeforeSentinel, ih1]
      · rw [heq, show serialOk false (WEv.jobStarted jj.op :: x :: WEv.taskDone :: transfer_worker rest)
            = serialOk true (x :: WEv.taskDone :: transfer_worker rest) from rfl,
          serialOk_skip hx1 hx2, show serialOk true (WEv.taskDone :: transfer_worker rest)
            = serialOk false (transfer_worker rest) from rfl]
        exact ih2
      · intro hnone
        have hmem : none ∈ rest := by
          rcases List.mem_cons.mp hnone with h | h
          · exact absurd h (by simp)
          · exact h
        have hT := ih3 hmem
        have hTne : transfer_worker rest ≠ [] := by
          intro e
          rw [e] at hT
          simp at hT
        obtain ⟨t0, T', hT'⟩ := List.exists_cons_of_ne_nil hTne
        rw [heq, hT', List.getLast?_cons_cons, List.getLast?_cons_cons,
          List.getLast?_cons_cons, ← hT']
        exact hT

/-- Witness for the worker claim: one upload job then the sentinel. -/
theorem transfer_worker_fifo_witness :
    (transfer_worker [some ⟨str "upload_file", false⟩, none]).getLast?
      = some .workerStopped :=
  (transfer_worker_fifo [some ⟨str "upload_file", false⟩, none]).2.2 (by decide)

/-- C2: if the local file does not exist, `put_file` returns with no scan and
no network activity at all; if the scan verdict is not clean, it returns
after only the scan, with no data-channel negotiation and no `STOR`; every
event other than the scan itself (data-channel negotiation, `STOR`,
streaming) can occur only when the file exists and the scan verdict was
clean. -/
theorem put_file_scan_gate :
    ∀ (env : Env) (fpath : Str) (s : Option Str),
      (env.fileExists = false → put_file env fpath s = ([], .ok ())) ∧
      (env.fileExists = true → scanVerdict env = false →
        put_file env fpath s = ([.scanned], .ok ())) ∧
      (∀ e, e ∈ (put_file env fpath s).1 → e ≠ .scanned →
        env.fileExists = true ∧ scanVerdict env = true) := by
  intro env fpath s
  refine ⟨?_, ?_, ?_⟩
  · intro h
    simp [put_file, h]
  · intro h1 h2
    simp [put_file, h1, h2]
  · intro e he hne
    by_cases h1 : env.fileExists = true
    · by_cases h2 : scanVerdict env = true
      · exact ⟨h1, h2⟩
      · rw [show put_file env fpath s = ([.scanned], .ok ()) by
          simp [put_file, h1, eq_false_of_ne_true h2]] at he
        simp at he
        exact absurd he hne
    · rw [show put_file env fpath s = ([], .ok ()) by
        simp [put_file, eq_false_of_ne_true h1]] at he
      simp at he

/-- Witness for the upload gate: a missing file yields no activity, and a
not-clean verdict yields only the scan event. -/
theorem put_file_scan_gate_witness :
    put_file envNoFile (str "a.txt") none = ([], .ok ()) ∧
    put_file envInfected (str "a.txt") none = ([.scanned], .ok ()) :=
  ⟨(put_file_scan_gate envNoFile (str "a.txt") none).1 rfl,
   (put_file_scan_gate envInfected (str "a.txt") none).2.1 rfl rfl⟩

theorem exceptOk_eq_true {ε α : Type} {x : Except ε α} :
    exceptOk x = true ↔ ∃ a, x = .ok a := by
  cases x <;> simp [exceptOk]

theorem gds_ok_of_negotiationOk (env : Env) (cmd : Str) (h : negotiationOk env = true) :
    ∃ t, get_data_socket env cmd = (t, .ok ()) := by
  by_cases hp : env.isPassive = true
  · rcases hpr : env.pasvReply with e | r
    · rw [negotiationOk, if_pos hp, hpr] at h
      simp at h
    · rw [negotiationOk, if_pos hp, hpr] at h
      simp only [Bool.and_eq_true, exceptOk_eq_true] at h
      obtain ⟨⟨hp', hparse⟩, u, hconn⟩ := h
      simp only [get_data_socket, hp, if_true, passive_mode, hpr, hparse, hconn]
      exact ⟨_, rfl⟩
  · rcases hpr : env.portReply with e | r
    · rw [negotiationOk, if_neg hp, hpr] at h
      simp at h
    · rw [negotiationOk, if_neg hp, hpr] at h
      simp only [Bool.and_eq_true, exceptOk_eq_true] at h
      obtain ⟨h200, u, hacc⟩ := h
      simp only [get_data_socket, hp, if_false, active_mode, hpr, h200, if_true, hacc]
      exact ⟨_, rfl⟩

theorem gds_no_streamed (env : Env) (cmd : Str) :
    Ev.streamed ∉ (get_data_socket env cmd).1 := by
  by_cases hp : env.isPassive = true
  · rcases hpr : env.pasvReply with e | r
    · simp [get_data_socket, hp, passive_mode, hpr]
    · rcases hps : passiveParse r with e | hpv
      · simp [get_data_socket, hp, passive_mode, hpr, hps]
      · rcases hcn : env.dataConnectOk with e | u
        · simp [get_data_socket, hp, passive_mode, hpr, hps, hcn]
        · simp [get_data_socket, hp, passive_mode, hpr, hps, hcn]
  · rcases hpr : env.portReply with e | r
    · simp [get_data_socket, hp, active_mode, hpr]
    · by_cases h200 : (str "200").isPrefixOf r = true
      · rcases hacc : env.acceptOk with e | u
        · simp [get_data_socket, hp, active_mode, hpr, h200, hacc]
        · simp [get_data_socket, hp, active_mode, hpr, h200, hacc]
      · simp [get_data_socket, hp, active_mode, hpr, h200]

/-- C6: in `put_file`, `down_file` and `list_files`, when the reply received
after the triggering STOR/RETR/LIST command does not start with 150, the data
socket is closed, nothing is streamed, and the operation returns its failure
indication (early return / `None`) without an exception escaping it. -/
theorem non150_closes_without_streaming :
    ∀ (env : Env) (r fpath name : Str) (s : Option Str),
      negotiationOk env = true → env.wrapOk = .ok () →
      env.cmdReply = .ok r → (str "150").isPrefixOf r = false →
      ((env.fileExists = true → scanVerdict env = true →
        (put_file env fpath s).2 = .ok () ∧
        Ev.closeData ∈ (put_file env fpath s).1 ∧
        Ev.streamed ∉ (put_file env fpath s).1) ∧
      ((down_file env name).2 = .ok () ∧
        Ev.closeData ∈ (down_file env name).1 ∧
        Ev.streamed ∉ (down_file env name).1) ∧
      ((list_files env).2 = .ok none ∧
        Ev.closeData ∈ (list_files env).1 ∧
        Ev.streamed ∉ (list_files env).1)) := by
  intro env r fpath name s hneg hwrap hcmd h150
  refine ⟨?_, ?_, ?_⟩
  · intro hfe hsv
    obtain ⟨t, ht⟩ := gds_ok_of_negotiationOk env (str "STOR " ++ putTargetName fpath s) hneg
    have hnost : Ev.streamed ∉ t := by
      have h := gds_no_streamed env (str "STOR " ++ putTargetName fpath s)
      rw [ht] at h
      exact h
    have hbody : put_fileBody env (putTargetName fpath s)
        = ((t ++ [Ev.wrapData]) ++ [Ev.closeData]
            ++ (if env.isPassive = true then [] else [Ev.closeListen]), .ok ()) := by
      simp [put_fileBody, ht, hwrap, hcmd, h150]
    have hpf : put_file env fpath s
        = (Ev.scanned :: ((t ++ [Ev.wrapData]) ++ [Ev.closeData]
            ++ (if env.isPassive = true then [] else [Ev.closeListen])), .ok ()) := by
      simp [put_file, hfe, hsv, hbody]
    rw [hpf]
    refine ⟨rfl, ?_, ?_⟩
    · simp
    · by_cases hp : env.isPassive = true <;>
        simp [hp, List.mem_append, List.mem_cons, hnost]
  · obtain ⟨t, ht⟩ := gds_ok_of_negotiationOk env (str "RETR " ++ name) hneg
    have hnost : Ev.streamed ∉ t := by
      have h := gds_no_streamed env (str "RETR " ++ name)
      rw [ht] at h
      exact h
    have hbody : down_fileBody env name
        = ((t ++ [Ev.wrapData]) ++ [Ev.closeData]
            ++ (if env.isPassive = true then [] else [Ev.closeListen]), .ok ()) := by
      simp [down_fileBody, ht, hwrap, hcmd, h150]
    have hdf : down_file env name
        = ((t ++ [Ev.wrapData]) ++ [Ev.closeData]
            ++ (if env.isPassive = true then [] else [Ev.closeListen]), .ok ()) := by
      simp [down_file, hbody]
    rw [hdf]
    refine ⟨rfl, ?_, ?_⟩
    · simp
    · by_cases hp : env.isPassive = true <;>
        simp [hp, List.mem_append, List.mem_cons, hnost]
  · obtain ⟨t, ht⟩ := gds_ok_of_negotiationOk env (str "LIST") hneg
    have hnost : Ev.streamed ∉ t := by
      have h := gds_no_streamed env (str "LIST")
      rw [ht] at h
      exact h
    have hlf : list_files env = ((t ++ [Ev.wrapData]) ++ [Ev.closeData], .ok none) := by
      simp [list_files, ht, hwrap, hcmd, h150]
    rw [hlf]
    refine ⟨rfl, ?_, ?_⟩
    · simp
    · simp [List.mem_append, List.mem_cons, hnost]

/-- Witness for the non-150 claim at a concrete denied transfer. -/
theorem non150_closes_without_streaming_witness :
    (list_files envDenied).2 = .ok none ∧ (put_file envDenied (str "a.txt") none).2 = .ok () :=
  ⟨((non150_closes_without_streaming envDenied (str "550 Permission denied\r\n")
      (str "a.txt") (str "a.txt") none rfl rfl rfl (by decide)).2.2).1,
   ((non150_closes_without_streaming envDenied (str "550 Permission denied\r\n")
      (str "a.txt") (str "a.txt") none rfl rfl rfl (by decide)).1 rfl rfl).1⟩

/-- C4 (amended): network and protocol errors at the control-channel level
are caught at the operation boundary for `connect`, `login`, `put_file` and
`down_file` — each returns its failure indicator (False / early return)
rather than letting the exception escape — but `list_files` has no handler,
so an error arising inside it (for example an unparsable PASV reply)
propagates to its caller. -/
theorem ctrl_error_boundary :
    (∀ (env : Env) (fpath : Str) (s : Option Str), exceptOk (put_file env fpath s).2 = true) ∧
    (∀ (env : Env) (name : Str), exceptOk (down_file env name).2 = true) ∧
    (∀ env : Env, exceptOk (connect env).2 = true) ∧
    (∀ (env : Env) (e : PyExc), (connectBody env).2 = .error e → (connect env).2 = .ok false) ∧
    (∀ (env : LoginEnv) (u p : Str) (e : PyExc),
      (loginBody env u p).2 = .error e → (login env u p).ok = false) ∧
    (∃ (env : Env) (e : PyExc), (list_files env).2 = .error e) := by
  refine ⟨?_, ?_, ?_, ?_, ?_, ?_⟩
  · intro env fpath s
    by_cases h1 : env.fileExists = true
    · by_cases h2 : scanVerdict env = true
      · rcases hb : put_fileBody env (putTargetName fpath s) with ⟨t, r⟩
        cases r <;> simp [put_file, h1, h2, hb, exceptOk]
      · simp [put_file, h1, eq_false_of_ne_true h2, exceptOk]
    · simp [put_file, eq_false_of_ne_true h1, exceptOk]
  · intro env name
    rcases hb : down_fileBody env name with ⟨t, r⟩
    cases r <;> simp [down_file, hb, exceptOk]
  · intro env
    rcases hg : env.greeting with e | g <;> simp [connect, connectBody, hg, exceptOk]
  · intro env e hbody
    rcases hg : env.greeting with e' | g <;>
      simp only [connectBody, hg] at hbody ⊢ <;> simp [connect, connectBody, hg]
    cases hbody
  · intro env u p e hbody
    rcases hl : loginBody env u p with ⟨⟨sent, m⟩, r⟩
    rw [hl] at hbody
    simp only at hbody
    subst hbody
    simp [login, hl]
  · exact ⟨envBadPasv, .indexError, rfl⟩

/-- Witness for the error-boundary claim: a failing AUTH TLS read makes
`login` return False rather than raise. -/
theorem ctrl_error_boundary_witness :
    (login loginEnvNetFail (str "u") (str "p")).ok = false :=
  ctrl_error_boundary.2.2.2.2.1 loginEnvNetFail (str "u") (str "p") .netError rfl

/-- C4 counterexample: with a PASV reply `list_files` cannot parse, the
`IndexError` raised inside `passive_mode` propagates uncaught out of
`list_files` instead of being caught at that operation's boundary and turned
into a failure return. -/
theorem ctrl_error_boundary_counterexample :
    (list_files envBadPasv).2 = .error PyExc.indexError := rfl

/-- C5 (amended): `login` returns True only if the PASS reply starts with
230; on such a reply it sends `PROT P` and issues `TYPE I`, but the session's
transfer mode is actually updated to 'I' only when the TYPE reply starts with
200 — otherwise the mode keeps its previous value (which is 'I' by the
constructor default, so the documented behaviour holds unless the mode had
been changed earlier); any non-230 PASS reply yields False. -/
theorem login_230_gate :
    ∀ (env : LoginEnv) (u p : Str),
      ((login env u p).ok = true →
        (∃ r, env.passReply = .ok r ∧ (str "230").isPrefixOf r = true) ∧
        str "PROT P" ∈ (login env u p).sent ∧
        str "TYPE I" ∈ (login env u p).sent ∧
        ((login env u p).mode = 'I' ↔
          ((∃ tr, env.typeReply = .ok tr ∧ (str "200").isPrefixOf tr = true) ∨
            env.initMode = 'I'))) ∧
      (∀ r, env.passReply = .ok r → (str "230").isPrefixOf r = false →
        (login env u p).ok = false) := by
  intro env u p
  rcases ha : env.authReply with e | ar
  · constructor
    · intro h
      simp [login, loginBody, ha] at h
    · intro r hr h230
      simp [login, loginBody, ha]
  · rcases hwp : (if (str "234").isPrefixOf ar then env.wrapOk else Except.ok ()) with e | u4 <;>
      simp only [List.isPrefixOf_iff_prefix] at hwp
    · constructor
      · intro h
        simp [login, loginBody, ha, hwp] at h
      · intro r hr h230
        simp [login, loginBody, ha, hwp]
    · rcases hu : env.userReply with e | ur
      · constructor
        · intro h
          simp [login, loginBody, ha, hwp, hu] at h
        · intro r hr h230
          simp [login, loginBody, ha, hwp, hu]
      · rcases hpass : env.passReply with e | pr
        · constructor
          · intro h
            simp [login, loginBody, ha, hwp, hu, hpass] at h
          · intro r hr h230
            cases hr
        · by_cases h230 : (str "230").isPrefixOf pr = true
          · rcases hprot : env.protReply with e | qr
            · constructor
              · intro h
                simp [login, loginBody, ha, hwp, hu, hpass, h230, hprot] at h
              · intro r hr h230'
                cases hr
                exact absurd h230 (by simp [h230'])
            · rcases htype : env.typeReply with e | tr
              · have hstm : set_transfer_mode env.initMode 'I' (Except.error e)
                    = ([str "TYPE " ++ ['I']], env.initMode, .error e) := by
                  simp [set_transfer_mode, pyUpper]
                constructor
                · intro h
                  rw [show login env u p
                      = ⟨[str "AUTH TLS"] ++ [str "USER " ++ u] ++ [str "PASS " ++ p]
                          ++ [str "PROT P"] ++ [str "TYPE " ++ ['I']], env.initMode, false⟩ by
                    simp [login, loginBody, ha, hwp, hu, hpass, h230, hprot, hstm, htype]] at h
                  simp at h
                · intro r hr h230'
                  cases hr
                  exact absurd h230 (by simp [h230'])
              · have hstm : set_transfer_mode env.initMode 'I' (Except.ok tr)
                    = ([str "TYPE " ++ ['I']],
                       (if (str "200").isPrefixOf tr then 'I' else env.initMode), .ok ()) := by
                  simp [set_transfer_mode, pyUpper]
                have hlogin : login env u p
                    = ⟨[str "AUTH TLS"] ++ [str "USER " ++ u] ++ [str "PASS " ++ p]
                        ++ [str "PROT P"] ++ [str "TYPE " ++ ['I']],
                       (if (str "200").isPrefixOf tr then 'I' else env.initMode), true⟩ := by
                  simp [login, loginBody, ha, hwp, hu, hpass, h230, hprot, hstm, htype]
                constructor
                · intro h
                  have hti : str "TYPE " ++ ['I'] = str "TYPE I" := rfl
                  refine ⟨⟨pr, rfl, h230⟩, ?_, ?_, ?_⟩
                  · rw [hlogin]
                    simp
                  · rw [hlogin, hti]
                    simp
                  · rw [hlogin]
                    by_cases h200 : (str "200").isPrefixOf tr = true
                    · simp only [h200, if_true]
                      simp only [eq_self_iff_true, true_iff]
                      exact Or.inl ⟨tr, rfl, h200⟩
                    · simp only [h200, if_false]
                      constructor
                      · intro hm
                        exact Or.inr hm
                      · intro hor
                        rcases hor with ⟨tr', htr', h200'⟩ | hm
                        · cases htr'
                          exact absurd h200' h200
                        · exact hm
                · intro r hr h230'
                  cases hr
                  exact absurd h230 (by simp [h230'])
          · constructor
            · intro h
              simp [login, loginBody, ha, hwp, hu, hpass, h230] at h
            · intro r hr h230'
              simp [login, loginBody, ha, hwp, hu, hpass, h230]

/-- Witness for the login claim: a 530 PASS reply yields False. -/
theorem login_230_gate_witness :
    (login loginEnvBadPass (str "u") (str "p")).ok = false :=
  (login_230_gate loginEnvBadPass (str "u") (str "p")).2
    (str "530 Login incorrect\r\n") rfl (by decide)

/-- C5 counterexample: with a 230 PASS reply but a 504 TYPE reply and the
session previously in ASCII mode, `login` returns True while the transfer
mode remains 'A' — `set_transfer_mode` updates the mode only on a 200
reply, so login does not unconditionally set Binary mode. -/
theorem login_230_gate_counterexample :
    (login loginEnvTypeRefused (str "u") (str "p")).ok = true ∧
    (login loginEnvTypeRefused (str "u") (str "p")).mode = 'A' ∧ 'A' ≠ 'I' :=
  ⟨rfl, rfl, by decide⟩
